import Mathlib

/-!
Verification development for the ticket statistics aggregation engine of
`build_report.py` (repository `integoreport`).

Shallow embedding conventions:
* Timestamp-valued JSON fields are modelled by `TVal`: a field is absent or
  JSON `null` (`TVal.null`), the empty string `""` (`TVal.empty`, which is
  non-null but falsy in Python), a string that `dateutil.parser.isoparse`
  accepts (`TVal.valid t`, with `t` the parsed instant as an integer epoch
  second count; `make_aware` only attaches a timezone and is the identity in
  this instant-based model), or a non-empty string that `isoparse` rejects
  (`TVal.malformed s`).
* Python exceptions are modelled with `Except String`: `isoparse` raises
  `ValueError` on a malformed string, and `calculate_ticket_stats` contains
  no `try/except`, so a raised error aborts the whole pass.
* Python `dict` used as a counter (insertion-ordered) is modelled as an
  association list `List (String × Int)`.
* Python float formatting (`f"{x:.1f}"`, `f"{x:.2f}"`) of a percentage
  `num/den * 100` is modelled exactly over the integer pair with
  round-half-to-even; the call sites of this program only format ratios of
  integer counters.
-/

inductive TVal where
  | null
  | empty
  | valid (epoch : Int)
  | malformed (s : String)
deriving DecidableEq, Repr

/-- Python truthiness of a timestamp-valued field: `None` and `""` are falsy,
any non-empty string (parseable or not) is truthy. -/
def TVal.truthy : TVal → Bool
  | .null => false
  | .empty => false
  | .valid _ => true
  | .malformed _ => true

/-- Python `a or b`: the first operand if it is truthy, otherwise the second. -/
def pyOr (a b : TVal) : TVal := if a.truthy then a else b

/-- Model of `dateutil.parser.isoparse`: succeeds exactly on parseable
timestamp strings, raises `ValueError` otherwise (including on `""`). -/
def isoparse : TVal → Except String Int
  | .valid t => .ok t
  | _ => .error "ValueError: invalid isoformat string"

/-- Model of the guarded parse pattern
`make_aware(isoparse(x)) if x else None` used throughout
`calculate_ticket_stats`: a falsy field yields `None`, a truthy field is fed
to `isoparse` (which may raise). -/
def parseTruthy (v : TVal) : Except String (Option Int) :=
  if v.truthy then (isoparse v).map some else .ok none

/-- Character-list test that `needle` occurs at the head of `haystack`. -/
def chars_begin : List Char → List Char → Bool
  | [], _ => true
  | _ :: _, [] => false
  | a :: as, b :: bs => a = b && chars_begin as bs

/-- Character-list substring occurrence test. -/
def chars_contain (needle : List Char) : List Char → Bool
  | [] => needle.isEmpty
  | h :: t => chars_begin needle (h :: t) || chars_contain needle t

/-- Model of Python `needle in haystack` on strings. -/
def str_contains (haystack needle : String) : Bool :=
  chars_contain needle.data haystack.data

/-- Model of Python `str.lower()` (the status texts involved are ASCII). -/
def str_lower (s : String) : String := String.mk (s.data.map Char.toLower)

/-- Model of Python `sep.join(parts)`. -/
def str_join (sep : String) : List String → String
  | [] => ""
  | [p] => p
  | p :: q :: ps => p ++ sep ++ str_join sep (q :: ps)

/-- Input domain of `format_duration`: `None`, a numeric value (the program
only ever passes integral second counts or nonnegative ratios of them; the
`int(seconds)` truncation in the source is the identity here), or a
non-numeric value (e.g. a string). -/
inductive DurationInput where
  | none
  | int (n : Int)
  | nonNumeric
deriving DecidableEq, Repr

/-- The `parts` list of `format_duration` (line 46): with
`days, r = divmod(seconds, 86400)`, `hours, r = divmod(r, 3600)`,
`minutes, _ = divmod(r, 60)`, keep only the non-zero components, in
descending unit order. -/
def duration_parts (seconds : Nat) : List String :=
  (if 0 < seconds / 86400 then [toString (seconds / 86400) ++ "d"] else []) ++
  (if 0 < seconds % 86400 / 3600 then [toString (seconds % 86400 / 3600) ++ "h"] else []) ++
  (if 0 < seconds % 86400 % 3600 / 60 then [toString (seconds % 86400 % 3600 / 60) ++ "m"] else [])

/-- Embedding of `format_duration` (build_report.py lines 41-47); on the
non-negative branch `int(seconds)` is `Int.toNat`. -/
def format_duration : DurationInput → String
  | .none => "N/A"
  | .nonNumeric => "N/A"
  | .int n =>
    if n < 0 then "N/A"
    else if n.toNat = 0 then "0m"
    else if duration_parts n.toNat = [] then "< 1m"
    else str_join " " (duration_parts n.toNat)

/-- Abstract model of `datetime.strftime("%b %d, %Y %H:%M")` on a parsed
instant; the calendar text itself is irrelevant to every claim, only that a
successfully parsed value renders to some string. -/
def strftime_model (t : Int) : String := "ts " ++ toString t

/-- Embedding of `format_datetime_filter` (lines 31-34): falsy input renders
"N/A", a parseable value is rendered via `strftime`, and on a parse failure
the `except` clause returns `str(value)` unchanged. -/
def format_datetime_filter : TVal → String
  | .null => "N/A"
  | .empty => "N/A"
  | .valid t => strftime_model t
  | .malformed s => s

structure SlaDef where
  reply : Option Int
  resolve : Option Int
deriving DecidableEq, Repr

/-- Embedding of the `SLA_DEFINITIONS` table (lines 17-23), combined with the
lookup `SLA_DEFINITIONS.get(p_text, SLA_DEFINITIONS["Unknown"])`: any
unrecognised priority falls back to the `Unknown` tier. -/
def SLA_DEFINITIONS (p_text : String) : SlaDef :=
  if p_text = "Urgent" then ⟨some (30 * 60), some (7 * 24 * 60 * 60)⟩
  else if p_text = "High" then ⟨some (2 * 60 * 60), some (14 * 24 * 60 * 60)⟩
  else if p_text = "Medium" then ⟨some (3 * 60 * 60), some (21 * 24 * 60 * 60)⟩
  else if p_text = "Low" then ⟨some (4 * 60 * 60), some (30 * 24 * 60 * 60)⟩
  else ⟨none, none⟩

/-- Embedding of the `CHART_COLORS` palette (line 24). -/
def CHART_COLORS : List String :=
  ["#007bff", "#28a745", "#ffc107", "#dc3545", "#6f42c1",
   "#fd7e14", "#20c997", "#6610f2", "#e83e8c"]

/-- Round-half-to-even of the exact ratio `num/den` (every call site has
`0 < den`) to the nearest integer: the rounding mode of Python float
formatting. -/
def round_half_even (num den : Int) : Int :=
  let q := num / den
  let r := num % den
  if 2 * r < den then q
  else if den < 2 * r then q + 1
  else if q % 2 = 0 then q else q + 1

/-- Exact model of Python `f"{x:.1f}"` for `x = num/den * 100`: the
percentage strings of the stats record and the chart legends. -/
def fmt_pct_1f (num den : Int) : String :=
  let t := round_half_even (num * 1000) den
  toString (t / 10) ++ "." ++ toString (t % 10)

/-- Exact model of Python `f"{x:.2f}"` for `x = num/den * 100`: the chart
segment widths. -/
def fmt_pct_2f (num den : Int) : String :=
  let t := round_half_even (num * 10000) den
  let frac := t % 100
  toString (t / 100) ++ "." ++ (if frac < 10 then "0" ++ toString frac else toString frac)

/-- One ticket record, restricted to the fields `calculate_ticket_stats`
reads. `Option.none` models an absent key wherever the source uses
`.get(key, default)`; the `stats_*` fields are the keys of the nested
`stats` sub-record. `proactive_case` reflects the truthiness of
`custom_fields.get('proactive_case', False)`; each entry of
`all_satisfaction_ratings` is `some r` when the rating record is truthy and
carries a non-null `ratings` value `r`, and `none` otherwise. -/
structure Ticket where
  priority_text : Option String
  type : Option String
  category : Option String
  status_text : Option String
  created_at : TVal
  resolved_at : TVal
  closed_at : TVal
  stats_resolved_at : TVal
  stats_closed_at : TVal
  stats_first_responded_at : TVal
  proactive_case : Bool
  all_satisfaction_ratings : List (Option Int)
deriving DecidableEq, Repr

/-- The three display fields `calculate_ticket_stats` writes back onto each
ticket (lines 181, 193-197): modelled as a returned record rather than
in-place mutation. -/
structure TicketDerived where
  calendar_resolution_time_str : String
  resolved_at_str : String
  first_reply_sla_status : String
deriving DecidableEq, Repr

/-- The mutable counter portion of the `stats` dict (initialised at lines
160-168 and updated inside the loop). -/
structure Counters where
  total_tickets : Int
  closed_tickets : Int
  open_tickets : Int
  tickets_by_type : List (String × Int)
  tickets_by_priority : List (String × Int)
  tickets_by_category : List (String × Int)
  total_resolution_seconds : Int
  resolved_ticket_count : Int
  proactive_tickets : Int
  total_first_response_seconds : Int
  first_response_count : Int
  first_reply_sla_met : Int
  first_reply_sla_applicable : Int
  resolution_sla_met : Int
  resolution_sla_applicable : Int
  satisfaction_ratings : List Int
deriving DecidableEq, Repr

/-- Model of `d[k] = d.get(k, 0) + 1` on an insertion-ordered dict. -/
def dictBump (m : List (String × Int)) (k : String) : List (String × Int) :=
  if m.any (fun p => p.1 = k) then
    m.map (fun p => if p.1 = k then (p.1, p.2 + 1) else p)
  else m ++ [(k, 1)]

/-- Embedding of line 178: closed-status classification by case-insensitive
substring match. -/
def is_closed_status (status_text : String) : Bool :=
  str_contains (str_lower status_text) "closed" || str_contains (str_lower status_text) "resolved"

/-- Embedding of line 179: the resolved/closed fallback chain
`ticket.get('resolved_at') or t_stats.get('resolved_at') or
ticket.get('closed_at') or t_stats.get('closed_at')`. -/
def resolved_timestamp_chain (ticket : Ticket) : TVal :=
  pyOr (pyOr (pyOr ticket.resolved_at ticket.stats_resolved_at) ticket.closed_at)
    ticket.stats_closed_at

/-- Modelled from the spec: the §3 rule that the "first non-null" value in the
priority order {resolved_at, stats.resolved_at, closed_at, stats.closed_at}
is authoritative — to be compared against the source's `or`-chain
(`resolved_timestamp_chain`). -/
def spec_first_non_null (ticket : Ticket) : Option TVal :=
  [ticket.resolved_at, ticket.stats_resolved_at, ticket.closed_at,
   ticket.stats_closed_at].find? (fun v => match v with | .null => false | _ => true)

/-- Embedding of `generate_segmented_bar_chart_html` (lines 57-102); the
Python default `bar_height_px=25` is passed explicitly at each call site. -/
def generate_segmented_bar_chart_html (data_dict : List (String × Int))
    (chart_title : String) (bar_height_px : Int) : String :=
  if data_dict.isEmpty || (data_dict.map Prod.snd).sum = 0 then
    "<div style=\"padding:10px; text-align:center; font-size:13px; color:#555;\">" ++
      chart_title ++ ": No data available.</div>"
  else
    let total_value := (data_dict.map Prod.snd).sum
    let sorted_data := data_dict.mergeSort (fun a b => a.2 ≥ b.2)
    let bar_segments_html := sorted_data.enum.filterMap (fun e =>
      let color := CHART_COLORS.getD (e.1 % CHART_COLORS.length) ""
      if 0 < e.2.2 * total_value then
        some ("<td width=\"" ++ fmt_pct_2f e.2.2 total_value ++ "%\" bgcolor=\"" ++ color ++
          "\" title=\"" ++ e.2.1 ++ ": " ++ toString e.2.2 ++ " (" ++
          fmt_pct_1f e.2.2 total_value ++
          "%)\" style=\"font-size:1px; line-height:1px; height:" ++
          toString bar_height_px ++ "px;\">&nbsp;</td>")
      else none)
    let legend_items_html := sorted_data.enum.map (fun e =>
      let color := CHART_COLORS.getD (e.1 % CHART_COLORS.length) ""
      "<li style=\"margin-bottom: 4px; font-size:12px; color:#333;\"><span style=\"display:inline-block;width:10px;height:10px;border-radius:2px;background-color:" ++
        color ++ ";margin-right:7px;vertical-align:middle;\"></span>" ++ e.2.1 ++ ": " ++
        toString e.2.2 ++ " (" ++ fmt_pct_1f e.2.2 total_value ++ "%)</li>")
    let bar_segments_html :=
      if bar_segments_html.isEmpty then
        ["<td width=\"100%\" bgcolor=\"#e0e0e0\" style=\"font-size:1px; line-height:1px; height:" ++
          toString bar_height_px ++
          "px; text-align:center; color:#555; font-size:10px; vertical-align:middle;\">(No values)</td>"]
      else bar_segments_html
    "\n    <div style=\"margin-bottom: 25px; padding:10px; border: 1px solid #eee; border-radius: 5px; background-color: #fdfdfd;\">\n        <h4 style=\"margin-top:0; margin-bottom: 10px; font-size: 16px; font-weight: 600; color: #444; text-align:center;\">" ++
      chart_title ++
      "</h4>\n        <table role=\"presentation\" width=\"100%\" cellpadding=\"0\" cellspacing=\"0\" style=\"border:1px solid #ccc; height: " ++
      toString bar_height_px ++
      "px; border-radius: 4px; overflow: hidden; table-layout: fixed;\">\n            <tr>\n                " ++
      str_join "" bar_segments_html ++
      "\n            </tr>\n        </table>\n        <ul style=\"list-style:none; padding-left:0; margin-top:10px; text-align:left; columns: 2; -webkit-columns: 2; -moz-columns: 2;\">\n            " ++
      str_join "" legend_items_html ++
      "\n        </ul>\n    </div>\n    "

/-- Embedding of line 108 of `generate_sla_bar_chart_html`: the missed count
derived for the chart is `applicable_count - met_count`. -/
def sla_missed_count (met_count applicable_count : Int) : Int :=
  applicable_count - met_count

/-- Embedding of `generate_sla_bar_chart_html` (lines 104-136); the Python
default colors are passed explicitly at each call site. -/
def generate_sla_bar_chart_html (met_count applicable_count : Int)
    (chart_title met_color missed_color : String) : String :=
  if applicable_count = 0 then
    "<div style=\"padding:10px; text-align:center; font-size:13px; color:#555;\">" ++
      chart_title ++ ": Not applicable (0 tickets).</div>"
  else
    let missed_count := sla_missed_count met_count applicable_count
    let bar_height_px : Int := 25
    let bar_segments_html :=
      (if 0 < met_count then
        ["<td width=\"" ++ fmt_pct_2f met_count applicable_count ++ "%\" bgcolor=\"" ++ met_color ++
          "\" title=\"Met: " ++ toString met_count ++ " (" ++ fmt_pct_1f met_count applicable_count ++
          "%)\" style=\"font-size:1px; line-height:1px; height:" ++
          toString bar_height_px ++ "px;\">&nbsp;</td>"]
      else []) ++
      (if 0 < missed_count then
        ["<td width=\"" ++ fmt_pct_2f missed_count applicable_count ++ "%\" bgcolor=\"" ++ missed_color ++
          "\" title=\"Missed: " ++ toString missed_count ++ " (" ++ fmt_pct_1f missed_count applicable_count ++
          "%)\" style=\"font-size:1px; line-height:1px; height:" ++
          toString bar_height_px ++ "px;\">&nbsp;</td>"]
      else [])
    let bar_segments_html :=
      if bar_segments_html.isEmpty && applicable_count ≠ 0 then
        ["<td width=\"100%\" bgcolor=\"#e0e0e0\" style=\"font-size:1px; line-height:1px; height:" ++
          toString bar_height_px ++
          "px; text-align:center; color:#555; font-size:10px; vertical-align:middle;\">(Data Unavailable)</td>"]
      else bar_segments_html
    "\n    <div style=\"margin-bottom: 25px; padding:10px; border: 1px solid #eee; border-radius: 5px; background-color: #fdfdfd;\">\n        <h4 style=\"margin-top:0; margin-bottom: 10px; font-size: 16px; font-weight: 600; color: #444; text-align:center;\">" ++
      chart_title ++
      "</h4>\n        <p style=\"font-size:12px; text-align:center; margin-top:0; margin-bottom:8px; color: #333;\">\n            <span style=\"color:" ++
      met_color ++ ";\">*</span> Met: " ++ toString met_count ++ " (" ++
      fmt_pct_1f met_count applicable_count ++ "%)&nbsp;&nbsp;\n            <span style=\"color:" ++
      missed_color ++ ";\">*</span> Missed: " ++ toString missed_count ++ " (" ++
      fmt_pct_1f missed_count applicable_count ++
      "%)\n        </p>\n        <table role=\"presentation\" width=\"100%\" cellpadding=\"0\" cellspacing=\"0\" style=\"border:1px solid #ccc; height: " ++
      toString bar_height_px ++
      "px; border-radius: 4px; overflow: hidden; table-layout: fixed;\">\n            <tr>\n                " ++
      str_join "" bar_segments_html ++
      "\n            </tr>\n        </table>\n    </div>\n    "

/-- Embedding of lines 174-177 of the loop body: the by-type, by-priority
and by-category distribution bumps and the proactive-case counter. -/
def tallyDistributions (c : Counters) (ticket : Ticket) (p_text : String) : Counters :=
  let c := { c with tickets_by_type := dictBump c.tickets_by_type (ticket.type.getD "N/A") }
  let c := { c with tickets_by_priority := dictBump c.tickets_by_priority p_text }
  let c := { c with tickets_by_category := dictBump c.tickets_by_category (ticket.category.getD "N/A") }
  if ticket.proactive_case then { c with proactive_tickets := c.proactive_tickets + 1 } else c

/-- Embedding of lines 182-187: the closed/resolution branch, guarded by
`is_closed and created_dt and resolved_dt and resolved_dt >= created_dt`. -/
def tallyResolution (c : Counters) (d : TicketDerived) (sla : SlaDef) (is_closed : Bool)
    (created_dt resolved_dt : Option Int) : Counters × TicketDerived :=
  match created_dt, resolved_dt with
  | some cd, some rd =>
    if is_closed && decide (cd ≤ rd) then
      let cal_secs := rd - cd
      let c := { c with closed_tickets := c.closed_tickets + 1,
                        total_resolution_seconds := c.total_resolution_seconds + cal_secs,
                        resolved_ticket_count := c.resolved_ticket_count + 1 }
      let d := { d with calendar_resolution_time_str := format_duration (.int cal_secs) }
      match sla.resolve with
      | some thr =>
        let c := { c with resolution_sla_applicable := c.resolution_sla_applicable + 1 }
        if cal_secs ≤ thr then
          ({ c with resolution_sla_met := c.resolution_sla_met + 1 }, d)
        else (c, d)
      | none => (c, d)
    else (c, d)
  | _, _ => (c, d)

/-- Embedding of lines 189-197: the first-response branch, guarded by
`fr_dt and created_dt and fr_dt >= created_dt`, with the `elif` fallback
(`sla reply threshold defined and created_dt`) setting the
"No Reply Logged" marker. -/
def tallyFirstReply (c : Counters) (d : TicketDerived) (sla : SlaDef)
    (created_dt fr_dt : Option Int) : Counters × TicketDerived :=
  match fr_dt, created_dt with
  | some fd, some cd =>
    if cd ≤ fd then
      let fr_secs := fd - cd
      let c := { c with total_first_response_seconds := c.total_first_response_seconds + fr_secs,
                        first_response_count := c.first_response_count + 1 }
      match sla.reply with
      | some thr =>
        let c := { c with first_reply_sla_applicable := c.first_reply_sla_applicable + 1 }
        if fr_secs ≤ thr then
          ({ c with first_reply_sla_met := c.first_reply_sla_met + 1 },
           { d with first_reply_sla_status := "Met" })
        else (c, { d with first_reply_sla_status := "Missed" })
      | none => (c, { d with first_reply_sla_status := "N/A (No SLA Def)" })
    else if sla.reply.isSome && created_dt.isSome then
      (c, { d with first_reply_sla_status := "No Reply Logged" })
    else (c, d)
  | _, _ =>
    if sla.reply.isSome && created_dt.isSome then
      (c, { d with first_reply_sla_status := "No Reply Logged" })
    else (c, d)

/-- Embedding of lines 199-200: append every present rating value. -/
def tallyRatings (c : Counters) (ticket : Ticket) : Counters :=
  { c with satisfaction_ratings :=
      c.satisfaction_ratings ++ ticket.all_satisfaction_ratings.filterMap id }

/-- Embedding of the loop body of `calculate_ticket_stats` (lines 169-200)
for one ticket: threading the mutable `stats` counters explicitly and
returning the display fields written onto the ticket. A `ValueError` from
any of the three `isoparse` calls propagates as `Except.error`, exactly as
in the source (which has no `try/except` here). -/
def processTicket (c : Counters) (ticket : Ticket) : Except String (Counters × TicketDerived) :=
  let p_text := ticket.priority_text.getD "Unknown"
  let sla := SLA_DEFINITIONS p_text
  match parseTruthy ticket.created_at with
  | .error e => .error e
  | .ok created_dt =>
    let c := tallyDistributions c ticket p_text
    let is_closed := is_closed_status (ticket.status_text.getD "")
    let resolved_dt_str := resolved_timestamp_chain ticket
    match parseTruthy resolved_dt_str with
    | .error e => .error e
    | .ok resolved_dt =>
      let d : TicketDerived :=
        { calendar_resolution_time_str := "N/A",
          resolved_at_str := format_datetime_filter resolved_dt_str,
          first_reply_sla_status := "N/A" }
      let step1 := tallyResolution c d sla is_closed created_dt resolved_dt
      match parseTruthy ticket.stats_first_responded_at with
      | .error e => .error e
      | .ok fr_dt =>
        let step2 := tallyFirstReply step1.1 step1.2 sla created_dt fr_dt
        .ok (tallyRatings step2.1 ticket, step2.2)

/-- The `for ticket in tickets_data` loop of `calculate_ticket_stats`,
accumulating the counters and the per-ticket display records in input
order; the first raised error aborts the remaining collection. -/
def runTickets (c : Counters) (ds : List TicketDerived) :
    List Ticket → Except String (Counters × List TicketDerived)
  | [] => .ok (c, ds)
  | t :: ts =>
    match processTicket c t with
    | .ok (c', d) => runTickets c' (ds ++ [d]) ts
    | .error e => .error e

/-- The `stats` dict as initialised at lines 160-168. -/
def initCounters (tickets_data : List Ticket) : Counters :=
  { total_tickets := (tickets_data.length : Int), closed_tickets := 0, open_tickets := 0,
    tickets_by_type := [], tickets_by_priority := [], tickets_by_category := [],
    total_resolution_seconds := 0, resolved_ticket_count := 0, proactive_tickets := 0,
    total_first_response_seconds := 0, first_response_count := 0,
    first_reply_sla_met := 0, first_reply_sla_applicable := 0,
    resolution_sla_met := 0, resolution_sla_applicable := 0,
    satisfaction_ratings := [] }

/-- The statistics record: the final counters together with the derived
strings (lines 201-206) and chart fragments (lines 209-213) added after the
loop. -/
structure Stats extends Counters where
  average_resolution_time_str : String
  average_first_response_time_str : String
  resolution_sla_percent_str : String
  first_reply_sla_percent_str : String
  satisfaction_summary : String
  type_chart_html : String
  priority_chart_html : String
  category_chart_html : String
  fr_sla_chart_html : String
  res_sla_chart_html : String
deriving DecidableEq, Repr

/-- Embedding of the post-loop phase of `calculate_ticket_stats` (lines
201-213): `open = total - closed`, the derived average/percentage strings,
and the chart fragments. Python's `total / count` is float division whose
result `format_duration` truncates with `int(...)`; both accumulators are
sums of nonnegative deltas and the counts are positive in the branch, so
integer floor division models it. -/
def mkStats (c0 : Counters) : Stats :=
  let c := { c0 with open_tickets := c0.total_tickets - c0.closed_tickets }
  { toCounters := c,
    average_resolution_time_str :=
      if 0 < c.resolved_ticket_count then
        format_duration (.int (c.total_resolution_seconds / c.resolved_ticket_count))
      else "N/A",
    average_first_response_time_str :=
      if 0 < c.first_response_count then
        format_duration (.int (c.total_first_response_seconds / c.first_response_count))
      else "N/A",
    resolution_sla_percent_str :=
      if 0 < c.resolution_sla_applicable then
        fmt_pct_1f c.resolution_sla_met c.resolution_sla_applicable ++
          "% Met (" ++ toString c.resolution_sla_met ++ "/" ++
          toString c.resolution_sla_applicable ++ ")"
      else "N/A",
    first_reply_sla_percent_str :=
      if 0 < c.first_reply_sla_applicable then
        fmt_pct_1f c.first_reply_sla_met c.first_reply_sla_applicable ++
          "% Met (" ++ toString c.first_reply_sla_met ++ "/" ++
          toString c.first_reply_sla_applicable ++ ")"
      else "N/A",
    satisfaction_summary :=
      if c.satisfaction_ratings ≠ [] then
        fmt_pct_1f ((c.satisfaction_ratings.countP (fun r => 4 ≤ r) : Int))
            ((c.satisfaction_ratings.length : Int)) ++ "% Positive"
      else "N/A",
    type_chart_html := generate_segmented_bar_chart_html c.tickets_by_type "Tickets by Type" 25,
    priority_chart_html := generate_segmented_bar_chart_html c.tickets_by_priority "Tickets by Priority" 25,
    category_chart_html := generate_segmented_bar_chart_html c.tickets_by_category "Tickets by Category" 25,
    fr_sla_chart_html := generate_sla_bar_chart_html c.first_reply_sla_met
      c.first_reply_sla_applicable "First Reply SLA Met/Missed" "#28a745" "#dc3545",
    res_sla_chart_html := generate_sla_bar_chart_html c.resolution_sla_met
      c.resolution_sla_applicable "Resolution SLA Met/Missed" "#28a745" "#dc3545" }

/-- Embedding of `calculate_ticket_stats` (lines 157-216). The Python
function returns the bare empty dict `{}` for an empty collection (line
159), modelled as `Option.none`; a populated run returns the stats record
and, in input order, the display fields written onto each ticket. -/
def calculate_ticket_stats (tickets_data : List Ticket) :
    Except String (Option (Stats × List TicketDerived)) :=
  if tickets_data.isEmpty then .ok none
  else
    match runTickets (initCounters tickets_data) [] tickets_data with
    | .error e => .error e
    | .ok (c, ds) => .ok (some (mkStats c, ds))

/-- A minimal ticket: every optional field absent, every timestamp null. -/
def blank_ticket : Ticket :=
  ⟨none, none, none, none, .null, .null, .null, .null, .null, .null, false, []⟩

/-- A ticket whose `created_at` is a non-empty string `isoparse` rejects. -/
def c1_bad_ticket : Ticket := { blank_ticket with created_at := .malformed "not-a-date" }

/-- A ticket with `resolved_at = ""` (non-null, falsy) and a parseable
`stats.resolved_at`. -/
def c6_ticket : Ticket :=
  { blank_ticket with resolved_at := .empty, stats_resolved_at := .valid 100 }

/-- An Urgent-priority ticket (reply threshold defined) with no `created_at`
and no first-response timestamp. -/
def c7_ticket : Ticket := { blank_ticket with priority_text := some "Urgent" }

/-- An Urgent-priority ticket with a parseable `created_at` and no
first-response timestamp. -/
def c7w_ticket : Ticket :=
  { blank_ticket with priority_text := some "Urgent", created_at := .valid 0 }

/-- A ticket with closed status text and a malformed `created_at`. -/
def c10_ticket : Ticket :=
  { blank_ticket with status_text := some "Closed", created_at := .malformed "not-a-date" }

/-- A ticket with closed status text and no `created_at` at all. -/
def c10w_ticket : Ticket := { blank_ticket with status_text := some "Closed" }

/-- An Urgent ticket created at epoch 0 with a first response `fr` seconds
later. -/
def urgent_fr_ticket (fr : Int) : Ticket :=
  { blank_ticket with priority_text := some "Urgent", created_at := .valid 0,
                      stats_first_responded_at := .valid fr }

/-- Four Urgent tickets: three first responses within the 1800 s reply
threshold, one outside it — 3 met of 4 applicable. -/
def c9_tickets : List Ticket :=
  [urgent_fr_ticket 600, urgent_fr_ticket 700, urgent_fr_ticket 800, urgent_fr_ticket 3600]

/-- The loop-final counters produced by processing `[blank_ticket]`. -/
def blank_final_counters : Counters :=
  { initCounters [blank_ticket] with
      tickets_by_type := [("N/A", 1)], tickets_by_priority := [("Unknown", 1)],
      tickets_by_category := [("N/A", 1)] }

/-- The statistics record produced for `[blank_ticket]`. -/
def blank_run_stats : Stats := mkStats blank_final_counters

/-- The display fields written for `blank_ticket`. -/
def blank_run_derived : List TicketDerived := [⟨"N/A", "N/A", "N/A"⟩]

/-- The counters produced by one `processTicket` step on `c7w_ticket` from
the zero counters. -/
def c7w_counters : Counters :=
  { initCounters [] with
      tickets_by_type := [("N/A", 1)], tickets_by_priority := [("Urgent", 1)],
      tickets_by_category := [("N/A", 1)] }

/-- The display fields written for `c7w_ticket`. -/
def c7w_derived : TicketDerived := ⟨"N/A", "N/A", "No Reply Logged"⟩

/-- The counters produced by one `processTicket` step on `c10w_ticket` from
the zero counters. -/
def c10w_counters : Counters :=
  { initCounters [] with
      tickets_by_type := [("N/A", 1)], tickets_by_priority := [("Unknown", 1)],
      tickets_by_category := [("N/A", 1)] }


/-- The last character of a string, used to separate `format_duration`
output from the "N/A" sentinel. -/
def lastChar (s : String) : Option Char := s.data.getLast?

/-- The output of a `duration_parts` join always ends in a unit letter. -/
def ends_in_unit (s : String) : Prop :=
  lastChar s = some 'd' ∨ lastChar s = some 'h' ∨ lastChar s = some 'm'

/-- Invariant carried through the aggregation loop: the two duration
accumulators and all counters are nonnegative, and each SLA met-tally never
exceeds its applicable-tally. -/
def CountersOk (c : Counters) : Prop :=
  0 ≤ c.total_resolution_seconds ∧ 0 ≤ c.total_first_response_seconds ∧
  0 ≤ c.resolved_ticket_count ∧ 0 ≤ c.first_response_count ∧
  0 ≤ c.first_reply_sla_met ∧ c.first_reply_sla_met ≤ c.first_reply_sla_applicable ∧
  0 ≤ c.resolution_sla_met ∧ c.resolution_sla_met ≤ c.resolution_sla_applicable

/-- C1: the claim (and the spec's failure policy) says a malformed timestamp
string must not raise and must not abort the remaining collection. The
code contradicts this: `calculate_ticket_stats` calls `isoparse` with no
`try/except` (line 173), so a collection whose first ticket has
`created_at = "not-a-date"` raises `ValueError`; no aggregate is produced
and the second, well-formed ticket is never processed. -/
theorem C1_malformed_timestamp_aborts_pass :
    calculate_ticket_stats [c1_bad_ticket, blank_ticket] =
      .error "ValueError: invalid isoformat string" := by rfl

/-- C2 counterexample: on the empty collection the aggregator returns the
bare empty dict `{}` (line 159, modelled as `none`): the call succeeds but
produces no statistics record at all, so there is no record in which
`total_tickets` equals 0 with zeroed counters and empty distributions, as
the claim asserts. -/
theorem C2_counterexample :
    (calculate_ticket_stats []).map Option.isSome = .ok false := by rfl

/-- C2 (amended): calling the aggregator on an empty ticket collection
returns, without raising, the bare empty record `{}` — containing no
fields at all — rather than a zeroed statistics record. -/
theorem C2_empty_collection_returns_empty_dict :
    calculate_ticket_stats [] = .ok none := by rfl

/-- C4: `format_duration` renders `None` and non-numeric input as "N/A",
negatives as "N/A", zero as "0m", positive sub-minute integral durations
as "< 1m", and otherwise (60 s or more) the space-join of the non-zero
day/hour/minute components obtained by integer division, in descending
order — the parts list is then never empty, and e.g. 3661 s is "1h 1m" and
90000 s is "1d 1h" (a day component). -/
theorem C4_format_duration_spec :
    format_duration .none = "N/A" ∧
    format_duration .nonNumeric = "N/A" ∧
    (∀ n : Int, n < 0 → format_duration (.int n) = "N/A") ∧
    format_duration (.int 0) = "0m" ∧
    (∀ n : Int, 0 < n → n < 60 → format_duration (.int n) = "< 1m") ∧
    (∀ n : Int, 60 ≤ n → duration_parts n.toNat ≠ [] ∧
      format_duration (.int n) = str_join " " (duration_parts n.toNat)) ∧
    format_duration (.int 45) = "< 1m" ∧
    format_duration (.int 3661) = "1h 1m" ∧
    format_duration (.int 90000) = "1d 1h" := by
  refine ⟨rfl, rfl, ?_, rfl, ?_, ?_, rfl, rfl, rfl⟩
  · intro n hn
    simp [format_duration, hn]
  · intro n h1 h2
    interval_cases n <;> rfl
  · intro n hn
    have hne : duration_parts n.toNat ≠ [] := by
      unfold duration_parts
      split <;> split <;> split <;> simp_all <;> omega
    refine ⟨hne, ?_⟩
    simp only [format_duration]
    rw [if_neg (by omega), if_neg (by omega), if_neg hne]

/-- Witness for C4: the quantified cases instantiated at -5 s and 45 s. -/
theorem C4_witness :
    format_duration (.int (-5)) = "N/A" ∧ format_duration (.int 45) = "< 1m" ∧
    format_duration (.int 3661) = str_join " " (duration_parts 3661) := by
  obtain ⟨-, -, h3, -, h5, h6, -, -, -⟩ := C4_format_duration_spec
  exact ⟨h3 (-5) (by norm_num), h5 45 (by norm_num) (by norm_num),
    (h6 3661 (by norm_num)).2⟩

/-- C6 counterexample: `c6_ticket` has `resolved_at = ""` (non-null) and a
parseable `stats.resolved_at`. The first non-null value in the spec's
priority order is the empty string, but the source's Python `or` chain
skips falsy values and selects `stats.resolved_at` instead. -/
theorem C6_counterexample :
    spec_first_non_null c6_ticket = some TVal.empty ∧
    resolved_timestamp_chain c6_ticket = TVal.valid 100 ∧
    some (resolved_timestamp_chain c6_ticket) ≠ spec_first_non_null c6_ticket :=
  ⟨rfl, rfl, by decide⟩

/-- C6 (amended): the authoritative resolved/closed timestamp is the first
truthy (non-null and non-empty-string) value in the priority order
{resolved_at, stats.resolved_at, closed_at, stats.closed_at}, falling back
to the (falsy) last field when no value is truthy. -/
theorem C6_authoritative_timestamp_chain (t : Ticket) :
    resolved_timestamp_chain t =
      ([t.resolved_at, t.stats_resolved_at, t.closed_at,
        t.stats_closed_at].find? (fun v => v.truthy)).getD t.stats_closed_at := by
  by_cases h1 : t.resolved_at.truthy <;> by_cases h2 : t.stats_resolved_at.truthy <;>
    by_cases h3 : t.closed_at.truthy <;> by_cases h4 : t.stats_closed_at.truthy <;>
    simp [resolved_timestamp_chain, pyOr, List.find?_cons, h1, h2, h3, h4]

/-- C7 counterexample: `c7_ticket` has an Urgent tier (reply threshold
1800 s defined) and no first-response timestamp, yet because it also lacks
a `created_at` the `elif` at line 196 (which requires `created_dt`) does
not fire and its `first_reply_sla_status` stays at the default "N/A"
instead of the "No Reply Logged" marker. -/
theorem C7_counterexample :
    (calculate_ticket_stats [c7_ticket]).map
        (Option.map (fun p => p.2.map (fun d => d.first_reply_sla_status))) =
      .ok (some ["N/A"]) ∧ ("N/A" : String) ≠ "No Reply Logged" :=
  ⟨rfl, by decide⟩

/-- C10 counterexample: `c10_ticket` has closed status text and an
unparseable `created_at` ("lacks a parseable created_at timestamp").
Rather than leaving `closed_tickets` unincremented and counting the ticket
in `open_tickets`, the pass raises `ValueError` and produces no statistics
record at all, so the ticket is not counted anywhere. -/
theorem C10_counterexample :
    (calculate_ticket_stats [c10_ticket]).toOption = none ∧
    is_closed_status (c10_ticket.status_text.getD "") = true :=
  ⟨rfl, by decide⟩


lemma tallyDistributions_fields (c : Counters) (t : Ticket) (p : String) :
    (tallyDistributions c t p).total_tickets = c.total_tickets ∧
    (tallyDistributions c t p).closed_tickets = c.closed_tickets ∧
    (tallyDistributions c t p).total_resolution_seconds = c.total_resolution_seconds ∧
    (tallyDistributions c t p).total_first_response_seconds = c.total_first_response_seconds ∧
    (tallyDistributions c t p).resolved_ticket_count = c.resolved_ticket_count ∧
    (tallyDistributions c t p).first_response_count = c.first_response_count ∧
    (tallyDistributions c t p).first_reply_sla_met = c.first_reply_sla_met ∧
    (tallyDistributions c t p).first_reply_sla_applicable = c.first_reply_sla_applicable ∧
    (tallyDistributions c t p).resolution_sla_met = c.resolution_sla_met ∧
    (tallyDistributions c t p).resolution_sla_applicable = c.resolution_sla_applicable := by
  unfold tallyDistributions
  split <;> exact ⟨rfl, rfl, rfl, rfl, rfl, rfl, rfl, rfl, rfl, rfl⟩

lemma tallyResolution_total (c : Counters) (d : TicketDerived) (sla : SlaDef) (b : Bool)
    (cd rd : Option Int) :
    (tallyResolution c d sla b cd rd).1.total_tickets = c.total_tickets := by
  unfold tallyResolution
  repeat' split
  all_goals (try simp only [])
  all_goals repeat' split
  all_goals rfl

lemma tallyResolution_ok (c : Counters) (d : TicketDerived) (sla : SlaDef) (b : Bool)
    (cd rd : Option Int) (hok : CountersOk c) :
    CountersOk (tallyResolution c d sla b cd rd).1 := by
  unfold CountersOk at hok ⊢
  unfold tallyResolution
  repeat' split
  all_goals (try simp only [])
  all_goals repeat' split
  all_goals (try simp only [])
  all_goals simp_all only [Bool.and_eq_true, decide_eq_true_eq, and_true, true_and, and_self]
  all_goals omega

lemma tallyFirstReply_total (c : Counters) (d : TicketDerived) (sla : SlaDef)
    (cd fd : Option Int) :
    (tallyFirstReply c d sla cd fd).1.total_tickets = c.total_tickets := by
  unfold tallyFirstReply
  repeat' split
  all_goals (try simp only [])
  all_goals repeat' split
  all_goals rfl

lemma tallyFirstReply_ok (c : Counters) (d : TicketDerived) (sla : SlaDef)
    (cd fd : Option Int) (hok : CountersOk c) :
    CountersOk (tallyFirstReply c d sla cd fd).1 := by
  unfold CountersOk at hok ⊢
  unfold tallyFirstReply
  repeat' split
  all_goals (try simp only [])
  all_goals repeat' split
  all_goals (try simp only [])
  all_goals simp_all only [Bool.and_eq_true, decide_eq_true_eq, and_true, true_and, and_self]
  all_goals omega

lemma tallyRatings_fields (c : Counters) (t : Ticket) :
    (tallyRatings c t).total_tickets = c.total_tickets ∧
    (CountersOk c → CountersOk (tallyRatings c t)) := by
  unfold tallyRatings CountersOk
  exact ⟨rfl, fun h => h⟩

lemma processTicket_ok_elim (c : Counters) (t : Ticket) (c' : Counters) (d : TicketDerived)
    (h : processTicket c t = .ok (c', d)) :
    ∃ created_dt resolved_dt fr_dt : Option Int,
      parseTruthy t.created_at = .ok created_dt ∧
      parseTruthy (resolved_timestamp_chain t) = .ok resolved_dt ∧
      parseTruthy t.stats_first_responded_at = .ok fr_dt ∧
      c' = tallyRatings (tallyFirstReply
              (tallyResolution (tallyDistributions c t (t.priority_text.getD "Unknown"))
                ⟨"N/A", format_datetime_filter (resolved_timestamp_chain t), "N/A"⟩
                (SLA_DEFINITIONS (t.priority_text.getD "Unknown"))
                (is_closed_status (t.status_text.getD "")) created_dt resolved_dt).1
              (tallyResolution (tallyDistributions c t (t.priority_text.getD "Unknown"))
                ⟨"N/A", format_datetime_filter (resolved_timestamp_chain t), "N/A"⟩
                (SLA_DEFINITIONS (t.priority_text.getD "Unknown"))
                (is_closed_status (t.status_text.getD "")) created_dt resolved_dt).2
              (SLA_DEFINITIONS (t.priority_text.getD "Unknown")) created_dt fr_dt).1 t ∧
      d = (tallyFirstReply
              (tallyResolution (tallyDistributions c t (t.priority_text.getD "Unknown"))
                ⟨"N/A", format_datetime_filter (resolved_timestamp_chain t), "N/A"⟩
                (SLA_DEFINITIONS (t.priority_text.getD "Unknown"))
                (is_closed_status (t.status_text.getD "")) created_dt resolved_dt).1
              (tallyResolution (tallyDistributions c t (t.priority_text.getD "Unknown"))
                ⟨"N/A", format_datetime_filter (resolved_timestamp_chain t), "N/A"⟩
                (SLA_DEFINITIONS (t.priority_text.getD "Unknown"))
                (is_closed_status (t.status_text.getD "")) created_dt resolved_dt).2
              (SLA_DEFINITIONS (t.priority_text.getD "Unknown")) created_dt fr_dt).2 := by
  unfold processTicket at h
  cases h1 : parseTruthy t.created_at with
  | error e => rw [h1] at h; simp at h
  | ok created_dt =>
    rw [h1] at h
    simp only [] at h
    cases h2 : parseTruthy (resolved_timestamp_chain t) with
    | error e => rw [h2] at h; simp at h
    | ok resolved_dt =>
      rw [h2] at h
      simp only [] at h
      cases h3 : parseTruthy t.stats_first_responded_at with
      | error e => rw [h3] at h; simp at h
      | ok fr_dt =>
        rw [h3] at h
        simp only [Except.ok.injEq, Prod.mk.injEq] at h
        exact ⟨created_dt, resolved_dt, fr_dt, rfl, rfl, rfl, h.1.symm, h.2.symm⟩

lemma processTicket_step (c : Counters) (t : Ticket) (c' : Counters) (d : TicketDerived)
    (h : processTicket c t = .ok (c', d)) :
    c'.total_tickets = c.total_tickets ∧ (CountersOk c → CountersOk c') := by
  obtain ⟨cd, rd, fd, -, -, -, hc, -⟩ := processTicket_ok_elim c t c' d h
  subst hc
  constructor
  · rw [(tallyRatings_fields _ _).1, tallyFirstReply_total, tallyResolution_total,
      (tallyDistributions_fields c t _).1]
  · intro hok
    have h0 : CountersOk (tallyDistributions c t (t.priority_text.getD "Unknown")) := by
      unfold CountersOk at hok ⊢
      have hf := tallyDistributions_fields c t (t.priority_text.getD "Unknown")
      omega
    exact (tallyRatings_fields _ _).2 (tallyFirstReply_ok _ _ _ _ _
      (tallyResolution_ok _ _ _ _ _ _ h0))

lemma runTickets_inv :
    ∀ (ts : List Ticket) (c : Counters) (ds : List TicketDerived) (c' : Counters)
      (ds' : List TicketDerived), runTickets c ds ts = .ok (c', ds') →
      c'.total_tickets = c.total_tickets ∧ (CountersOk c → CountersOk c')
  | [], c, ds, c', ds', h => by
      unfold runTickets at h
      simp only [Except.ok.injEq, Prod.mk.injEq] at h
      obtain ⟨h1, -⟩ := h
      subst h1
      exact ⟨rfl, id⟩
  | t :: ts, c, ds, c', ds', h => by
      unfold runTickets at h
      cases hp : processTicket c t with
      | error e => rw [hp] at h; simp at h
      | ok p =>
        rw [hp] at h
        obtain ⟨c1, d1⟩ := p
        simp only [] at h
        obtain ⟨hstep_total, hstep_ok⟩ := processTicket_step c t c1 d1 hp
        obtain ⟨ih_total, ih_ok⟩ := runTickets_inv ts c1 (ds ++ [d1]) c' ds' h
        exact ⟨ih_total.trans hstep_total, fun hc => ih_ok (hstep_ok hc)⟩

lemma calculate_ticket_stats_ok_elim (tickets : List Ticket) (s : Stats)
    (ds : List TicketDerived)
    (h : calculate_ticket_stats tickets = .ok (some (s, ds))) :
    ∃ c, runTickets (initCounters tickets) [] tickets = .ok (c, ds) ∧ s = mkStats c := by
  unfold calculate_ticket_stats at h
  by_cases he : tickets.isEmpty
  · rw [if_pos he] at h; simp at h
  · rw [if_neg he] at h
    cases hr : runTickets (initCounters tickets) [] tickets with
    | error e => rw [hr] at h; simp at h
    | ok p =>
      obtain ⟨c, ds0⟩ := p
      rw [hr] at h
      simp only [Except.ok.injEq, Option.some.injEq, Prod.mk.injEq] at h
      obtain ⟨hs, hds⟩ := h
      exact ⟨c, by rw [hds], hs.symm⟩

lemma initCounters_ok (tickets : List Ticket) : CountersOk (initCounters tickets) := by
  unfold CountersOk initCounters
  norm_num

/-- C3: for every ticket collection on which the aggregator returns a
statistics record, `open_tickets + closed_tickets = total_tickets` and
`total_tickets` equals the length of the input collection. -/
theorem C3_open_closed_total (tickets : List Ticket) (s : Stats) (ds : List TicketDerived)
    (h : calculate_ticket_stats tickets = .ok (some (s, ds))) :
    s.open_tickets + s.closed_tickets = s.total_tickets ∧
    s.total_tickets = (tickets.length : Int) := by
  obtain ⟨c, hr, hs⟩ := calculate_ticket_stats_ok_elim tickets s ds h
  obtain ⟨htot, -⟩ := runTickets_inv tickets (initCounters tickets) [] c ds hr
  subst hs
  have h1 : (mkStats c).open_tickets = c.total_tickets - c.closed_tickets := rfl
  have h2 : (mkStats c).closed_tickets = c.closed_tickets := rfl
  have h3 : (mkStats c).total_tickets = c.total_tickets := rfl
  have h4 : (initCounters tickets).total_tickets = (tickets.length : Int) := rfl
  rw [h1, h2, h3]
  exact ⟨by ring, htot.trans h4⟩

/-- C5: in every returned statistics record, for both SLA dimensions the
tallies satisfy `met ≤ applicable`, and the met/missed pair derived for the
SLA chart (`missed = applicable - met`, line 108) satisfies
`met + missed = applicable` exactly. -/
theorem C5_sla_tallies (tickets : List Ticket) (s : Stats) (ds : List TicketDerived)
    (h : calculate_ticket_stats tickets = .ok (some (s, ds))) :
    s.first_reply_sla_met ≤ s.first_reply_sla_applicable ∧
    s.resolution_sla_met ≤ s.resolution_sla_applicable ∧
    s.first_reply_sla_met + sla_missed_count s.first_reply_sla_met s.first_reply_sla_applicable
      = s.first_reply_sla_applicable ∧
    s.resolution_sla_met + sla_missed_count s.resolution_sla_met s.resolution_sla_applicable
      = s.resolution_sla_applicable := by
  obtain ⟨c, hr, hs⟩ := calculate_ticket_stats_ok_elim tickets s ds h
  have hc := (runTickets_inv tickets (initCounters tickets) [] c ds hr).2
    (initCounters_ok tickets)
  subst hs
  have e1 : (mkStats c).first_reply_sla_met = c.first_reply_sla_met := rfl
  have e2 : (mkStats c).first_reply_sla_applicable = c.first_reply_sla_applicable := rfl
  have e3 : (mkStats c).resolution_sla_met = c.resolution_sla_met := rfl
  have e4 : (mkStats c).resolution_sla_applicable = c.resolution_sla_applicable := rfl
  rw [e1, e2, e3, e4]
  unfold CountersOk at hc
  unfold sla_missed_count
  omega


lemma lastChar_append (a b : String) (hb : b.data ≠ []) :
    lastChar (a ++ b) = lastChar b := by
  unfold lastChar
  rw [String.data_append, List.getLast?_append]
  cases hc : b.data.getLast? with
  | none => exact absurd (List.getLast?_eq_none_iff.mp hc) hb
  | some x => rfl


lemma ends_d (x : String) : ends_in_unit (x ++ "d") :=
  Or.inl (by rw [lastChar_append x "d" (by decide)]; decide)

lemma ends_h (x : String) : ends_in_unit (x ++ "h") :=
  Or.inr (Or.inl (by rw [lastChar_append x "h" (by decide)]; decide))

lemma ends_m (x : String) : ends_in_unit (x ++ "m") :=
  Or.inr (Or.inr (by rw [lastChar_append x "m" (by decide)]; decide))

lemma ends_in_unit_data_ne_nil {s : String} (h : ends_in_unit s) : s.data ≠ [] := by
  rcases h with h | h | h <;>
    (intro hnil; unfold lastChar at h; rw [hnil] at h; simp at h)

lemma str_join_ends_in_unit :
    ∀ ps : List String, ps ≠ [] → (∀ p ∈ ps, ends_in_unit p) →
      ends_in_unit (str_join " " ps)
  | [], h, _ => absurd rfl h
  | [p], _, hall => by simpa [str_join] using hall p (by simp)
  | p :: q :: ps, _, hall => by
      have ih := str_join_ends_in_unit (q :: ps) (by simp)
        (fun x hx => hall x (List.mem_cons_of_mem p hx))
      have hne := ends_in_unit_data_ne_nil ih
      unfold str_join
      unfold ends_in_unit at ih ⊢
      rw [lastChar_append (p ++ " ") _ hne]
      exact ih

lemma duration_parts_ends (s : Nat) : ∀ p ∈ duration_parts s, ends_in_unit p := by
  intro p hp
  unfold duration_parts at hp
  rcases List.mem_append.mp hp with h12 | h3
  · rcases List.mem_append.mp h12 with h1 | h2
    · by_cases hc : 0 < s / 86400
      · rw [if_pos hc] at h1; simp at h1; subst h1; exact ends_d _
      · rw [if_neg hc] at h1; simp at h1
    · by_cases hc : 0 < s % 86400 / 3600
      · rw [if_pos hc] at h2; simp at h2; subst h2; exact ends_h _
      · rw [if_neg hc] at h2; simp at h2
  · by_cases hc : 0 < s % 86400 % 3600 / 60
    · rw [if_pos hc] at h3; simp at h3; subst h3; exact ends_m _
    · rw [if_neg hc] at h3; simp at h3

lemma format_duration_ne_NA (n : Int) (h : 0 ≤ n) : format_duration (.int n) ≠ "N/A" := by
  have hcases : format_duration (.int n) = "0m" ∨ format_duration (.int n) = "< 1m" ∨
      ends_in_unit (format_duration (.int n)) := by
    simp only [format_duration]
    rw [if_neg (by omega)]
    by_cases h0 : n.toNat = 0
    · rw [if_pos h0]; exact Or.inl rfl
    · rw [if_neg h0]
      by_cases hp : duration_parts n.toNat = []
      · rw [if_pos hp]; exact Or.inr (Or.inl rfl)
      · rw [if_neg hp]
        exact Or.inr (Or.inr (str_join_ends_in_unit _ hp (duration_parts_ends _)))
  rcases hcases with he | he | he
  · rw [he]; decide
  · rw [he]; decide
  · intro hEq
    rw [hEq] at he
    unfold ends_in_unit at he
    have : ¬ (lastChar "N/A" = some 'd' ∨ lastChar "N/A" = some 'h' ∨
        lastChar "N/A" = some 'm') := by decide
    exact this he

lemma pct_string_ne_NA (n d m a : Int) :
    fmt_pct_1f n d ++ "% Met (" ++ toString m ++ "/" ++ toString a ++ ")" ≠ "N/A" := by
  intro hEq
  have hlen := congrArg String.length hEq
  simp only [String.length_append] at hlen
  have h1 : ("% Met (" : String).length = 7 := rfl
  have h2 : ("N/A" : String).length = 3 := rfl
  omega

lemma positive_string_ne_NA (n d : Int) : fmt_pct_1f n d ++ "% Positive" ≠ "N/A" := by
  intro hEq
  have hlen := congrArg String.length hEq
  simp only [String.length_append] at hlen
  have h1 : ("% Positive" : String).length = 10 := rfl
  have h2 : ("N/A" : String).length = 3 := rfl
  omega

/-- C9 (amended): every derived average and percentage field of the
statistics record equals "N/A" exactly when its denominator (resolved
count, first-response count, applicable count, or ratings count) is zero.
When the denominator is positive, the SLA fields are the one-decimal
percentage followed by " Met (met/applicable)" — e.g. 3 met of 4
applicable yields "75.0% Met (3/4)", not the bare "75.0%" the claim
states (see the counterexample). -/
theorem C9_na_iff_zero_denominator (tickets : List Ticket) (s : Stats)
    (ds : List TicketDerived)
    (h : calculate_ticket_stats tickets = .ok (some (s, ds))) :
    (s.resolution_sla_percent_str = "N/A" ↔ s.resolution_sla_applicable = 0) ∧
    (s.first_reply_sla_percent_str = "N/A" ↔ s.first_reply_sla_applicable = 0) ∧
    (s.average_resolution_time_str = "N/A" ↔ s.resolved_ticket_count = 0) ∧
    (s.average_first_response_time_str = "N/A" ↔ s.first_response_count = 0) ∧
    (s.satisfaction_summary = "N/A" ↔ s.satisfaction_ratings = []) := by
  obtain ⟨c, hr, hs⟩ := calculate_ticket_stats_ok_elim tickets s ds h
  have hc := (runTickets_inv tickets (initCounters tickets) [] c ds hr).2
    (initCounters_ok tickets)
  unfold CountersOk at hc
  subst hs
  refine ⟨?_, ?_, ?_, ?_, ?_⟩
  · have e : (mkStats c).resolution_sla_percent_str =
        if 0 < c.resolution_sla_applicable then
          fmt_pct_1f c.resolution_sla_met c.resolution_sla_applicable ++
            "% Met (" ++ toString c.resolution_sla_met ++ "/" ++
            toString c.resolution_sla_applicable ++ ")"
        else "N/A" := rfl
    have e2 : (mkStats c).resolution_sla_applicable = c.resolution_sla_applicable := rfl
    rw [e, e2]
    by_cases hpos : 0 < c.resolution_sla_applicable
    · rw [if_pos hpos]
      exact ⟨fun hEq => absurd hEq (pct_string_ne_NA _ _ _ _), fun hz => absurd hz (by omega)⟩
    · rw [if_neg hpos]
      exact ⟨fun _ => by omega, fun _ => rfl⟩
  · have e : (mkStats c).first_reply_sla_percent_str =
        if 0 < c.first_reply_sla_applicable then
          fmt_pct_1f c.first_reply_sla_met c.first_reply_sla_applicable ++
            "% Met (" ++ toString c.first_reply_sla_met ++ "/" ++
            toString c.first_reply_sla_applicable ++ ")"
        else "N/A" := rfl
    have e2 : (mkStats c).first_reply_sla_applicable = c.first_reply_sla_applicable := rfl
    rw [e, e2]
    by_cases hpos : 0 < c.first_reply_sla_applicable
    · rw [if_pos hpos]
      exact ⟨fun hEq => absurd hEq (pct_string_ne_NA _ _ _ _), fun hz => absurd hz (by omega)⟩
    · rw [if_neg hpos]
      exact ⟨fun _ => by omega, fun _ => rfl⟩
  · have e : (mkStats c).average_resolution_time_str =
        if 0 < c.resolved_ticket_count then
          format_duration (.int (c.total_resolution_seconds / c.resolved_ticket_count))
        else "N/A" := rfl
    have e2 : (mkStats c).resolved_ticket_count = c.resolved_ticket_count := rfl
    rw [e, e2]
    by_cases hpos : 0 < c.resolved_ticket_count
    · rw [if_pos hpos]
      have hq : 0 ≤ c.total_resolution_seconds / c.resolved_ticket_count :=
        Int.ediv_nonneg (by omega) (by omega)
      exact ⟨fun hEq => absurd hEq (format_duration_ne_NA _ hq),
        fun hz => absurd hz (by omega)⟩
    · rw [if_neg hpos]
      exact ⟨fun _ => by omega, fun _ => rfl⟩
  · have e : (mkStats c).average_first_response_time_str =
        if 0 < c.first_response_count then
          format_duration (.int (c.total_first_response_seconds / c.first_response_count))
        else "N/A" := rfl
    have e2 : (mkStats c).first_response_count = c.first_response_count := rfl
    rw [e, e2]
    by_cases hpos : 0 < c.first_response_count
    · rw [if_pos hpos]
      have hq : 0 ≤ c.total_first_response_seconds / c.first_response_count :=
        Int.ediv_nonneg (by omega) (by omega)
      exact ⟨fun hEq => absurd hEq (format_duration_ne_NA _ hq),
        fun hz => absurd hz (by omega)⟩
    · rw [if_neg hpos]
      exact ⟨fun _ => by omega, fun _ => rfl⟩
  · have e : (mkStats c).satisfaction_summary =
        if c.satisfaction_ratings ≠ [] then
          fmt_pct_1f ((c.satisfaction_ratings.countP (fun r => 4 ≤ r) : Int))
              ((c.satisfaction_ratings.length : Int)) ++ "% Positive"
        else "N/A" := rfl
    have e2 : (mkStats c).satisfaction_ratings = c.satisfaction_ratings := rfl
    rw [e, e2]
    by_cases hne : c.satisfaction_ratings = []
    · rw [if_neg (by simp [hne])]
      exact ⟨fun _ => hne, fun _ => rfl⟩
    · rw [if_pos hne]
      exact ⟨fun hEq => absurd hEq (positive_string_ne_NA _ _), fun hz => absurd hz hne⟩

lemma tallyFirstReply_closed (c : Counters) (d : TicketDerived) (sla : SlaDef)
    (cd fd : Option Int) :
    (tallyFirstReply c d sla cd fd).1.closed_tickets = c.closed_tickets := by
  unfold tallyFirstReply
  repeat' split
  all_goals (try simp only [])
  all_goals repeat' split
  all_goals rfl

lemma tallyResolution_skip (c : Counters) (d : TicketDerived) (sla : SlaDef) (b : Bool)
    (cd rd : Option Int)
    (hskip : cd = none ∨ rd = none ∨ ∃ x y : Int, cd = some x ∧ rd = some y ∧ y < x) :
    tallyResolution c d sla b cd rd = (c, d) := by
  rcases hskip with hc | hr | ⟨x, y, hx, hy, hlt⟩
  · subst hc; rfl
  · subst hr; cases cd <;> rfl
  · subst hx; subst hy
    unfold tallyResolution
    simp only []
    have hdec : decide (x ≤ y) = false := decide_eq_false (by omega)
    rw [hdec, Bool.and_false]
    rfl

/-- C7 (amended): for every ticket whose priority tier defines a non-null
reply threshold, whose `created_at` parses to a timestamp, and which has
no first-response timestamp present, the aggregator sets the per-ticket
`first_reply_sla_status` to the "No Reply Logged" marker. (The claim as
stated omits the `created_at` requirement; see the counterexample.) -/
theorem C7_no_reply_logged (c : Counters) (t : Ticket) (c' : Counters) (d : TicketDerived)
    (cd : Int)
    (hreply : (SLA_DEFINITIONS (t.priority_text.getD "Unknown")).reply.isSome = true)
    (hcreated : parseTruthy t.created_at = .ok (some cd))
    (hfr : parseTruthy t.stats_first_responded_at = .ok none)
    (h : processTicket c t = .ok (c', d)) :
    d.first_reply_sla_status = "No Reply Logged" := by
  obtain ⟨cd', rd, fd, h1, h2, h3, -, hd⟩ := processTicket_ok_elim c t c' d h
  have hcd : cd' = some cd := by
    injection hcreated.symm.trans h1 with hh
    exact hh.symm
  have hfd : fd = none := by
    injection hfr.symm.trans h3 with hh
    exact hh.symm
  subst hcd
  subst hfd
  rw [hd]
  unfold tallyFirstReply
  simp [hreply]

/-- C10 (amended): for every ticket whose status text classifies as closed
but whose `created_at` is absent, whose resolved/closed fallback chain is
absent, or whose resolved timestamp is earlier than its created timestamp,
the `closed_tickets` counter is not incremented while `total_tickets` is
unchanged — so the final `open = total - closed` assignment counts the
ticket as open. (A ticket whose `created_at` is present but unparseable
instead aborts the pass; see the counterexample.) -/
theorem C10_skip_closed_count (c : Counters) (t : Ticket) (c' : Counters) (d : TicketDerived)
    (hclosed : is_closed_status (t.status_text.getD "") = true)
    (hcase : parseTruthy t.created_at = .ok none ∨
             parseTruthy (resolved_timestamp_chain t) = .ok none ∨
             (∃ cd rd : Int, parseTruthy t.created_at = .ok (some cd) ∧
               parseTruthy (resolved_timestamp_chain t) = .ok (some rd) ∧ rd < cd))
    (h : processTicket c t = .ok (c', d)) :
    c'.closed_tickets = c.closed_tickets ∧ c'.total_tickets = c.total_tickets := by
  refine ⟨?_, (processTicket_step c t c' d h).1⟩
  obtain ⟨cd, rd, fd, h1, h2, h3, hc, -⟩ := processTicket_ok_elim c t c' d h
  have hskip : cd = none ∨ rd = none ∨ ∃ x y : Int, cd = some x ∧ rd = some y ∧ y < x := by
    rcases hcase with hcs | hcs | ⟨x, y, hx, hy, hlt⟩
    · left; injection hcs.symm.trans h1 with hh; exact hh.symm
    · right; left; injection hcs.symm.trans h2 with hh; exact hh.symm
    · right; right
      refine ⟨x, y, ?_, ?_, hlt⟩
      · injection hx.symm.trans h1 with hh; exact hh.symm
      · injection hy.symm.trans h2 with hh; exact hh.symm
  subst hc
  rw [tallyResolution_skip _ _ _ _ _ _ hskip]
  simp only []
  have hR : ∀ cc : Counters, (tallyRatings cc t).closed_tickets = cc.closed_tickets :=
    fun _ => rfl
  rw [hR, tallyFirstReply_closed, (tallyDistributions_fields c t _).2.1]

lemma seg_chart_zero_total (data_dict : List (String × Int)) (chart_title : String)
    (bar_height_px : Int) (h : (data_dict.map Prod.snd).sum = 0) :
    generate_segmented_bar_chart_html data_dict chart_title bar_height_px =
      "<div style=\"padding:10px; text-align:center; font-size:13px; color:#555;\">" ++
        chart_title ++ ": No data available.</div>" := by
  unfold generate_segmented_bar_chart_html
  rw [h]
  simp

/-- C8: a distribution with zero total (in particular an empty or all-zero
one) makes the segmented chart encoder return the "no data available"
fragment — identically to the empty distribution — and `applicable = 0`
makes the SLA chart encoder return the "not applicable" fragment; no
branch divides by zero, and the encoders are total functions. -/
theorem C8_charts_no_data :
    (∀ (data_dict : List (String × Int)) (chart_title : String) (bar_height_px : Int),
        (data_dict.map Prod.snd).sum = 0 →
        generate_segmented_bar_chart_html data_dict chart_title bar_height_px =
          "<div style=\"padding:10px; text-align:center; font-size:13px; color:#555;\">" ++
            chart_title ++ ": No data available.</div>") ∧
    (∀ (data_dict : List (String × Int)) (chart_title : String) (bar_height_px : Int),
        (data_dict.map Prod.snd).sum = 0 →
        generate_segmented_bar_chart_html data_dict chart_title bar_height_px =
          generate_segmented_bar_chart_html [] chart_title bar_height_px) ∧
    (∀ (met_count : Int) (chart_title met_color missed_color : String),
        generate_sla_bar_chart_html met_count 0 chart_title met_color missed_color =
          "<div style=\"padding:10px; text-align:center; font-size:13px; color:#555;\">" ++
            chart_title ++ ": Not applicable (0 tickets).</div>") := by
  refine ⟨seg_chart_zero_total, ?_, ?_⟩
  · intro data_dict chart_title bar_height_px h
    rw [seg_chart_zero_total data_dict chart_title bar_height_px h,
      seg_chart_zero_total [] chart_title bar_height_px rfl]
  · intro met_count chart_title met_color missed_color
    unfold generate_sla_bar_chart_html
    rw [if_pos rfl]

/-- Witness for C8 at an all-zero two-entry distribution and at
`applicable = 0`. -/
theorem C8_witness :
    (([("A", 0), ("B", 0)] : List (String × Int)).map Prod.snd).sum = 0 ∧
    generate_segmented_bar_chart_html [("A", 0), ("B", 0)] "Tickets by Type" 25 =
      "<div style=\"padding:10px; text-align:center; font-size:13px; color:#555;\">" ++
        "Tickets by Type" ++ ": No data available.</div>" ∧
    generate_segmented_bar_chart_html [("A", 0), ("B", 0)] "Tickets by Type" 25 =
      generate_segmented_bar_chart_html [] "Tickets by Type" 25 ∧
    generate_sla_bar_chart_html 0 0 "Resolution SLA Met/Missed" "#28a745" "#dc3545" =
      "<div style=\"padding:10px; text-align:center; font-size:13px; color:#555;\">" ++
        "Resolution SLA Met/Missed" ++ ": Not applicable (0 tickets).</div>" := by
  obtain ⟨h1, h2, h3⟩ := C8_charts_no_data
  exact ⟨by decide, h1 _ _ _ (by decide), h2 _ _ _ (by decide), h3 _ _ _ _⟩

/-- Witness for C3 at the one-element collection `[blank_ticket]`. -/
theorem C3_witness :
    calculate_ticket_stats [blank_ticket] = .ok (some (blank_run_stats, blank_run_derived)) ∧
    (blank_run_stats.open_tickets + blank_run_stats.closed_tickets =
        blank_run_stats.total_tickets ∧
      blank_run_stats.total_tickets = (([blank_ticket] : List Ticket).length : Int)) :=
  ⟨by rfl, C3_open_closed_total [blank_ticket] blank_run_stats blank_run_derived (by rfl)⟩

/-- Witness for C5 at the one-element collection `[blank_ticket]`. -/
theorem C5_witness :
    calculate_ticket_stats [blank_ticket] = .ok (some (blank_run_stats, blank_run_derived)) ∧
    (blank_run_stats.first_reply_sla_met ≤ blank_run_stats.first_reply_sla_applicable ∧
      blank_run_stats.resolution_sla_met ≤ blank_run_stats.resolution_sla_applicable ∧
      blank_run_stats.first_reply_sla_met +
          sla_missed_count blank_run_stats.first_reply_sla_met
            blank_run_stats.first_reply_sla_applicable =
        blank_run_stats.first_reply_sla_applicable ∧
      blank_run_stats.resolution_sla_met +
          sla_missed_count blank_run_stats.resolution_sla_met
            blank_run_stats.resolution_sla_applicable =
        blank_run_stats.resolution_sla_applicable) :=
  ⟨by rfl, C5_sla_tallies [blank_ticket] blank_run_stats blank_run_derived (by rfl)⟩

/-- Witness for C9 at the one-element collection `[blank_ticket]`, where
every denominator is zero. -/
theorem C9_witness :
    calculate_ticket_stats [blank_ticket] = .ok (some (blank_run_stats, blank_run_derived)) ∧
    ((blank_run_stats.resolution_sla_percent_str = "N/A" ↔
        blank_run_stats.resolution_sla_applicable = 0) ∧
      (blank_run_stats.first_reply_sla_percent_str = "N/A" ↔
        blank_run_stats.first_reply_sla_applicable = 0) ∧
      (blank_run_stats.average_resolution_time_str = "N/A" ↔
        blank_run_stats.resolved_ticket_count = 0) ∧
      (blank_run_stats.average_first_response_time_str = "N/A" ↔
        blank_run_stats.first_response_count = 0) ∧
      (blank_run_stats.satisfaction_summary = "N/A" ↔
        blank_run_stats.satisfaction_ratings = [])) :=
  ⟨by rfl, C9_na_iff_zero_denominator [blank_ticket] blank_run_stats blank_run_derived (by rfl)⟩

/-- Witness for C7 at an Urgent ticket with a parseable `created_at` and no
first response. -/
theorem C7_witness :
    (SLA_DEFINITIONS (c7w_ticket.priority_text.getD "Unknown")).reply.isSome = true ∧
    parseTruthy c7w_ticket.created_at = .ok (some 0) ∧
    parseTruthy c7w_ticket.stats_first_responded_at = .ok none ∧
    processTicket (initCounters []) c7w_ticket = .ok (c7w_counters, c7w_derived) ∧
    c7w_derived.first_reply_sla_status = "No Reply Logged" :=
  ⟨by rfl, by rfl, by rfl, by rfl,
    C7_no_reply_logged (initCounters []) c7w_ticket c7w_counters c7w_derived 0
      (by rfl) (by rfl) (by rfl) (by rfl)⟩

/-- Witness for C10 at a closed-status ticket with no `created_at`. -/
theorem C10_witness :
    is_closed_status (c10w_ticket.status_text.getD "") = true ∧
    parseTruthy c10w_ticket.created_at = .ok none ∧
    processTicket (initCounters []) c10w_ticket = .ok (c10w_counters, ⟨"N/A", "N/A", "N/A"⟩) ∧
    (c10w_counters.closed_tickets = (initCounters []).closed_tickets ∧
      c10w_counters.total_tickets = (initCounters []).total_tickets) :=
  ⟨by decide, by rfl, by rfl,
    C10_skip_closed_count (initCounters []) c10w_ticket c10w_counters ⟨"N/A", "N/A", "N/A"⟩
      (by decide) (Or.inl (by rfl)) (by rfl)⟩

/-- C9 counterexample: four Urgent tickets with 3 first replies inside and 1
outside the 1800 s threshold. The claim's example says 3 met of 4
applicable yields the percentage string "75.0%", but the field produced by
the code is "75.0% Met (3/4)". -/
theorem C9_counterexample :
    (calculate_ticket_stats c9_tickets).map
        (Option.map (fun p => p.1.first_reply_sla_percent_str)) =
      .ok (some "75.0% Met (3/4)") ∧ ("75.0% Met (3/4)" : String) ≠ "75.0%" :=
  ⟨by rfl, by decide⟩
